import Mathlib

/-!
Shallow embedding of the PittAPI course and gym modules
(`pittapi/course.py`, `pittapi/gym.py`).

Python `Union[str, int]` arguments are modelled by `PyArg`; machine-level
string conversion `str(...)` by `pyStr`; fallible Python code (raising
`ValueError`, `IndexError`, `TypeError`) returns `Except String _`.
Network calls are modelled by an environment of fetched responses plus an
explicit event trace recording which fetches are issued and in what order.
-/

namespace PittAPI

/-- A Python `Union[str, int]` argument. -/
inductive PyArg where
  | int (n : Int)
  | str (s : String)
deriving DecidableEq, Repr

/-- Python `str(n)` for an `int` `n`: decimal digits, `-` sign when negative. -/
def pyStrInt (n : Int) : String :=
  if n < 0 then "-" ++ Nat.repr (-n).toNat else Nat.repr n.toNat

/-- Python `str(x)` on a `Union[str, int]` value. -/
def pyStr : PyArg → String
  | .int n => pyStrInt n
  | .str s => s

/-- Python `s.isdigit()` (restricted to ASCII digits, which is all the
repository ever feeds it): true iff `s` is nonempty and all characters are
digits. -/
def pyIsDigit (s : String) : Bool :=
  !s.isEmpty && s.toList.all Char.isDigit

/-- `("0" * (4 - len(s))) + s` from `_validate_course` (course.py:239). -/
def zeroPad4 (s : String) : String :=
  ⟨List.replicate (4 - s.length) '0' ++ s.data⟩

/-- The length branch of `_validate_course` (course.py:237-242): pad short
numbers to 4 characters, reject longer ones. -/
def validate_course_len (s : String) : Except String String :=
  if s.length < 4 then .ok (zeroPad4 s)
  else if s.length > 4 then .error "ValueError: course must be 4 characters long"
  else .ok s

/-- `_validate_course` (course.py:229-242).  The Python function guards each
check with a `type(course) is ...` test, so per input type the checks reduce
to the branches below: a `str` is checked for emptiness then for non-digit
characters, an `int` for non-positivity; both then go through the length
branch on `str(course)`. -/
def validate_course (course : PyArg) : Except String String :=
  match course with
  | .str s =>
    if s = "" then .error "ValueError: empty course"
    else if !(pyIsDigit s) then .error "ValueError: course must be a number"
    else validate_course_len s
  | .int n =>
    if n ≤ 0 then .error "ValueError: course must be positive"
    else validate_course_len (pyStrInt n)

/-- Denotation of `re.compile("2\\d\\d[147]").match(s)` (course.py:32-33,219)
as a Bool: `re.match` anchors at the start only, so it succeeds iff the first
four characters are `2`, digit, digit, one of `1`/`4`/`7`; anything may
follow. (ASCII digits; the repository only ever passes ASCII.) -/
def termRegexMatch (s : String) : Bool :=
  match s.toList with
  | c0 :: c1 :: c2 :: c3 :: _ =>
    c0 == '2' && c1.isDigit && c2.isDigit && (c3 == '1' || c3 == '4' || c3 == '7')
  | _ => false

/-- `_validate_term` (course.py:217-221). -/
def validate_term (term : PyArg) : Except String String :=
  if termRegexMatch (pyStr term) then .ok (pyStr term)
  else .error "ValueError: invalid term"

/-! ### gym.py -/

/-- The `Gym` named tuple (gym.py:27-31). -/
structure Gym where
  name : String
  date : String
  count : Int
  percentage : Int
deriving DecidableEq, Repr

/-- Python `s.strip()` on a character list: drop leading and trailing
whitespace. -/
def pyStrip (l : List Char) : List Char :=
  ((l.dropWhile Char.isWhitespace).reverse.dropWhile Char.isWhitespace).reverse

/-- Python `int(s)` for a string `s`: optional surrounding whitespace, an
optional sign, then at least one digit; `none` models a `ValueError`.
(ASCII digits; digit-grouping underscores are not modelled — the scraped
fields never contain them.) -/
def pyParseInt (s : String) : Option Int :=
  match pyStrip s.toList with
  | [] => none
  | '-' :: ds =>
    if !ds.isEmpty && ds.all Char.isDigit then
      some (-(ds.foldl (fun acc c => 10 * acc + (c.toNat - '0'.toNat)) 0 : Nat))
    else none
  | '+' :: ds =>
    if !ds.isEmpty && ds.all Char.isDigit then
      some ((ds.foldl (fun acc c => 10 * acc + (c.toNat - '0'.toNat)) 0 : Nat))
    else none
  | ds =>
    if ds.all Char.isDigit then
      some ((ds.foldl (fun acc c => 10 * acc + (c.toNat - '0'.toNat)) 0 : Nat))
    else none

/-- Python slice `s[n:]`. -/
def pyDrop (n : Nat) (s : String) : String :=
  ⟨s.toList.drop n⟩

/-- Python `s.rstrip("%")`: remove every trailing `%`. -/
def rstripPercent (s : String) : String :=
  ⟨(s.toList.reverse.dropWhile (· == '%')).reverse⟩

/-- The loop body of `get_all_gyms_info` (gym.py:48-58) on one parsed
`barChart` fragment, given as the `|`-separated pieces `info` of its text.
`info[0]`, `info[2]`, `info[3]`, `info[4]` raise `IndexError` when missing;
`int(info[2][12:])` raises `ValueError` when it does not parse; only the
percentage parse is wrapped in `try/except ValueError`, defaulting to 0. -/
def processBarChart (info : List String) : Except String Gym :=
  match info.get? 0 with
  | none => .error "IndexError"
  | some name =>
    match info.get? 2 with
    | none => .error "IndexError"
    | some i2 =>
      match pyParseInt (pyDrop 12 i2) with
      | none => .error "ValueError"
      | some count =>
        match info.get? 3 with
        | none => .error "IndexError"
        | some i3 =>
          match info.get? 4 with
          | none => .error "IndexError"
          | some i4 =>
            .ok { name := name, date := pyDrop 9 i3, count := count,
                  percentage := (pyParseInt (rstripPercent i4)).getD 0 }

/-- `get_all_gyms_info` (gym.py:34-59) on the parsed `barChart` fragments of
the fetched page: any uncaught exception in the loop aborts the whole call. -/
def get_all_gyms_info (fragments : List (List String)) : Except String (List Gym) :=
  match fragments with
  | [] => .ok []
  | f :: fs =>
    match processBarChart f with
    | .error e => .error e
    | .ok g =>
      match get_all_gyms_info fs with
      | .error e => .error e
      | .ok gs => .ok (g :: gs)

/-- `GYM_Names` (gym.py:62-71). -/
def GYM_Names : List String :=
  ["Baierl Rec Center",
   "Bellefield Hall: Fitness Center & Weight Room",
   "Bellefield Hall: Court & Dance Studio",
   "Trees Hall: Fitness Center",
   "Trees Hall: Courts",
   "Trees Hall: Racquetball Courts & Multipurpose Room",
   "William Pitt Union",
   "Pitt Sports Dome"]

/-- Events of `get_gym_information`: the page fetch issued by its call to
`get_all_gyms_info`, and the membership test of the name against
`GYM_Names`. -/
inductive GymEv where
  | fetchGymPage
  | rosterCheck (name : String)
deriving DecidableEq, Repr

/-- `get_gym_information` (gym.py:74-82), given the gym list `page` that its
unconditional first statement `info = get_all_gyms_info()` fetched.  The
trace records that the fetch precedes the roster check.  When the name is in
`GYM_Names` the loop returns the first fetched gym with that name, falling
through to an implicit `None`; otherwise the `else` branch returns `None`. -/
def get_gym_information (page : List Gym) (gym_name : String) :
    List GymEv × Option Gym :=
  ([GymEv.fetchGymPage, GymEv.rosterCheck gym_name],
   if GYM_Names.contains gym_name then page.find? (fun g => g.name == gym_name)
   else none)

/-! ### course.py: output data model (the NamedTuples, course.py:35-94) -/

/-- `Instructor` (course.py:35-37). -/
structure Instructor where
  name : String
  email : Option String := none
deriving DecidableEq, Repr

/-- `Meeting` (course.py:39-45). -/
structure Meeting where
  days : String
  start_time : String
  end_time : String
  start_date : String
  end_date : String
  instructors : Option (List Instructor) := none
deriving DecidableEq, Repr

/-- `Attribute` (course.py:47-51); `attribute` is a Lean keyword, hence the
guillemets around the first field's name. -/
structure Attribute where
  «attribute» : String
  attribute_description : String
  attribute_value : String
  attribute_value_description : String
deriving DecidableEq, Repr

/-- `Component` (course.py:53-55). -/
structure Component where
  component : String
  required : Bool
deriving DecidableEq, Repr

/-- `SectionDetails` (course.py:57-67). -/
structure SectionDetails where
  units : String
  class_capacity : String
  enrollment_total : String
  enrollment_available : String
  wait_list_capacity : String
  wait_list_total : String
  valid_to_enroll : String
  combined_section_numbers : Option (List String) := none
deriving DecidableEq, Repr

/-- `Section` (course.py:69-78). -/
structure Section where
  term : String
  session : String
  section_number : String
  class_number : String
  section_type : String
  status : String
  instructors : Option (List Instructor) := none
  meetings : Option (List Meeting) := none
  details : Option SectionDetails := none
deriving DecidableEq, Repr

/-- `Course` (course.py:80-90). -/
structure Course where
  subject_code : String
  course_number : String
  course_id : String
  course_title : String
  course_description : Option String := none
  credit_range : Option (Int × Int) := none
  requisites : Option String := none
  components : Option (List Component) := none
  attributes : Option (List Attribute) := none
  sections : Option (List Section) := none
deriving DecidableEq, Repr

/-! ### course.py: raw JSON responses (only the fields the code reads) -/

/-- One entry of a subject's `courses` array (course.py:103-109, 280-282). -/
structure CourseListing where
  catalog_nbr : String
  crse_id : String
deriving DecidableEq, Repr

/-- One entry of `course_details.offerings`; `req_group := none` models a
missing `"req_group"` key (course.py:128). -/
structure RawOffering where
  req_group : Option String := none
deriving DecidableEq, Repr

/-- One entry of `course_details.components` (course.py:130-133). -/
structure RawComponent where
  descr : String
  optional : String
deriving DecidableEq, Repr

/-- One entry of `course_details.attributes` (course.py:136-141). -/
structure RawAttribute where
  crse_attribute : String
  crse_attribute_descr : String
  crse_attribute_value : String
  crse_attribute_value_descr : String
deriving DecidableEq, Repr

/-- The `course_details` object of the course-detail response
(course.py:119,126-142).  `offerings`/`components`/`attributes` are `none`
when the key is missing, mirroring the `"components" in json_response`
checks. -/
structure CourseInfo where
  descrlong : String
  units_minimum : Int
  units_maximum : Int
  offerings : Option (List RawOffering) := none
  components : Option (List RawComponent) := none
  attributes : Option (List RawAttribute) := none
deriving DecidableEq, Repr

/-- One entry of a section's `instructors` array in the browse-sections
response (course.py:151-156).  The source system emits either a bare string
(the `"To be Announced"` placeholder) or an object with `name` and `email`;
the code compares `instructors[0]` itself against the placeholder string and
subscripts entries with `["name"]`/`["email"]`, which on a bare string raises
`TypeError`. -/
inductive InstrEntry where
  | lit (s : String)
  | obj (name email : String)
deriving DecidableEq, Repr

/-- One entry of a section's `meetings` array in the browse-sections
response (course.py:157-166). -/
structure RawMeeting where
  days : String
  start_time : String
  end_time : String
  start_dt : String
  end_dt : String
  instructor : String
deriving DecidableEq, Repr

/-- One entry of the `sections` array of the browse-sections response
(course.py:125,143-167). -/
structure RawSection where
  descr : String
  session : String
  class_section : String
  class_nbr : Int
  section_type : String
  enrl_stat_descr : String
  instructors : List InstrEntry
  meetings : List RawMeeting
deriving DecidableEq, Repr

/-- `section_info.class_details` of the class-details response
(course.py:175,181-185,203). -/
structure RawClassDetails where
  session : String
  class_section : String
  component : String
  status : String
  units : String
deriving DecidableEq, Repr

/-- One entry of a meeting's `instructors` array in the class-details
response (course.py:194-199): here every entry is an object. -/
structure NamedInstructor where
  name : String
  email : String
deriving DecidableEq, Repr

/-- One entry of `section_info.meetings` (course.py:187-200). -/
structure RawMeetingDetail where
  stnd_mtg_pat : String
  meeting_time_start : String
  meeting_time_end : String
  start_date : String
  end_date : String
  instructors : List NamedInstructor
deriving DecidableEq, Repr

/-- `section_info.class_availability` (course.py:177,204-208). -/
structure RawAvailability where
  class_capacity : String
  enrollment_total : String
  enrollment_available : Int
  wait_list_capacity : String
  wait_list_total : String
deriving DecidableEq, Repr

/-- One entry of `section_info.combined_sections` (course.py:210-211). -/
structure RawCombined where
  class_nbr : String
deriving DecidableEq, Repr

/-- The `section_info` object of the class-details response
(course.py:174-212). -/
structure SectionInfo where
  class_details : RawClassDetails
  meetings : List RawMeetingDetail
  class_availability : RawAvailability
  valid_to_enroll : String
  is_combined : Bool
  combined_sections : List RawCombined
deriving DecidableEq, Repr

/-! ### course.py: builders (the comprehensions inside the operations) -/

/-- A Python list comprehension whose body may raise: evaluate `f` on each
element in order, aborting at the first exception. -/
def mapME (f : α → Except String β) : List α → Except String (List β)
  | [] => .ok []
  | x :: xs =>
    match f x with
    | .error e => .error e
    | .ok y =>
      match mapME f xs with
      | .error e => .error e
      | .ok ys => .ok (y :: ys)

/-- `Instructor(name=instructor["name"], email=instructor["email"])`
(course.py:152-155); subscripting a bare string entry raises `TypeError`. -/
def buildInstructor : InstrEntry → Except String Instructor
  | .obj n em => .ok { name := n, email := some em }
  | .lit _ => .error "TypeError"

/-- `section["instructors"][0] != "To be Announced"` negated
(course.py:156): the first entry is the bare placeholder string.  A dict
entry never equals a Python string, so only a `lit` entry can match. -/
def firstIsTBALit (l : List InstrEntry) : Bool :=
  match l.head? with
  | some (.lit s) => s == "To be Announced"
  | _ => false

/-- The `instructors=...` argument of the `Section` built by
`get_course_details` (course.py:151-156). -/
def buildSectionInstructors (l : List InstrEntry) :
    Except String (Option (List Instructor)) :=
  if !l.isEmpty && !firstIsTBALit l then
    match mapME buildInstructor l with
    | .error e => .error e
    | .ok instrs => .ok (some instrs)
  else .ok none

/-- The `meetings=...` argument of the `Section` built by
`get_course_details` (course.py:157-166). -/
def buildMeetings (l : List RawMeeting) : Option (List Meeting) :=
  if !l.isEmpty then
    some (l.map fun m =>
      { days := m.days, start_time := m.start_time, end_time := m.end_time,
        start_date := m.start_dt, end_date := m.end_dt,
        instructors := some [{ name := m.instructor }] })
  else none

/-- One `Section(...)` of the `sections=[...]` comprehension in
`get_course_details` (course.py:143-167). -/
def buildSection (term : String) (s : RawSection) : Except String Section :=
  match buildSectionInstructors s.instructors with
  | .error e => .error e
  | .ok instrs =>
    .ok { term := term, session := s.session, section_number := s.class_section,
          class_number := pyStrInt s.class_nbr, section_type := s.section_type,
          status := s.enrl_stat_descr, instructors := instrs,
          meetings := buildMeetings s.meetings, details := none }

/-- The `components=...` argument of `get_course_details` (course.py:129-134):
`none` when the key is missing or the array empty, otherwise the mapped list
with `required = (optional == 'N')`. -/
def buildComponents (c : Option (List RawComponent)) : Option (List Component) :=
  match c with
  | some l =>
    if !l.isEmpty then
      some (l.map fun comp => { component := comp.descr, required := comp.optional == "N" })
    else none
  | none => none

/-- The `attributes=...` argument of `get_course_details` (course.py:135-142). -/
def buildAttributes (a : Option (List RawAttribute)) : Option (List Attribute) :=
  match a with
  | some l =>
    if !l.isEmpty then
      some (l.map fun attr =>
        { «attribute» := attr.crse_attribute,
          attribute_description := attr.crse_attribute_descr,
          attribute_value := attr.crse_attribute_value,
          attribute_value_description := attr.crse_attribute_value_descr })
    else none
  | none => none

/-- The `requisites=...` argument of `get_course_details` (course.py:128):
`offerings[0]["req_group"]` when the key exists, the array is nonempty and
the first offering has the key, else `None`. -/
def buildRequisites (o : Option (List RawOffering)) : Option String :=
  match o with
  | some (first :: _) => first.req_group
  | _ => none

/-- The `Course(...)` return expression of `get_course_details`
(course.py:121-169), given the already-fetched pieces. `sections[0]` on an
empty sections array would raise `IndexError` (the wrapper below never lets
that happen: `_get_course_sections` has already rejected an empty array). -/
def buildCourse (term subject course cid : String) (info : CourseInfo)
    (sects : List RawSection) : Except String Course :=
  match sects with
  | [] => .error "IndexError"
  | s0 :: _ =>
    match mapME (buildSection term) sects with
    | .error e => .error e
    | .ok builtSections =>
      .ok { subject_code := subject, course_number := course, course_id := cid,
            course_title := s0.descr,
            course_description := some info.descrlong,
            credit_range := some (info.units_minimum, info.units_maximum),
            requisites := buildRequisites info.offerings,
            components := buildComponents info.components,
            attributes := buildAttributes info.attributes,
            sections := some builtSections }

/-! ### course.py: operations with explicit fetch traces -/

/-- `_validate_subject` (course.py:223-227) on the already-fetched list of
subject codes (the fetch itself is recorded by the caller's trace). -/
def validate_subject (codes : List String) (subject : String) : Except String String :=
  if codes.contains subject then .ok subject
  else .error "ValueError: invalid subject"

/-- `_get_internal_id_dict` (course.py:277-283) on the fetched course list:
insertion-ordered dict, inserting only keys not already present, so the
first occurrence of a `catalog_nbr` wins. -/
def get_internal_id_dict (courses : List CourseListing) : List (String × String) :=
  courses.foldl
    (fun d c =>
      if (d.lookup c.catalog_nbr).isSome then d
      else d ++ [(c.catalog_nbr, c.crse_id)])
    []

/-- `_get_course_id` (course.py:285-289) on the fetched course list. -/
def get_course_id (courses : List CourseListing) (course : String) : Except String String :=
  match (get_internal_id_dict courses).lookup course with
  | some cid => .ok cid
  | none => .error "ValueError: no course with that number"

/-- The network calls `get_course_details` can issue, in the order the code
issues them. -/
inductive CourseEv where
  | fetchSubjects
  | fetchSubjectCourses (subject : String)
  | fetchCourseInfo (id : String)
  | fetchCourseSections (id term : String)
deriving DecidableEq, Repr

/-- The remote data the course operations read, indexed the way the APIs are
keyed.  `courseInfo _ = none` models a response whose `course_details` is
`{}` (course.py:253); section fetch errors are modelled at the call sites. -/
structure Env where
  subjects : List String
  subjectCourses : String → List CourseListing
  courseInfo : String → Option CourseInfo
  courseSections : String → String → List RawSection

/-- `get_course_details` (course.py:113-169) with an explicit fetch trace:
`_validate_term` is pure, `_validate_subject` fetches the subject roster,
`_validate_course` is pure, `_get_course_id` fetches the subject's course
list, then the course-info and browse-sections calls; `_get_course_info`
rejects an empty `course_details` and `_get_course_sections` rejects an
empty `sections` array (course.py:251-261). -/
def get_course_details (env : Env) (term : PyArg) (subject : String)
    (course : PyArg) : List CourseEv × Except String Course :=
  match validate_term term with
  | .error e => ([], .error e)
  | .ok t =>
    match validate_subject env.subjects subject with
    | .error e => ([CourseEv.fetchSubjects], .error e)
    | .ok subj =>
      match validate_course course with
      | .error e => ([CourseEv.fetchSubjects], .error e)
      | .ok crs =>
        match get_course_id (env.subjectCourses subj) crs with
        | .error e => ([CourseEv.fetchSubjects, CourseEv.fetchSubjectCourses subj], .error e)
        | .ok cid =>
          match env.courseInfo cid with
          | none =>
            ([CourseEv.fetchSubjects, CourseEv.fetchSubjectCourses subj,
              CourseEv.fetchCourseInfo cid],
             .error "ValueError: course with that ID does not exist")
          | some info =>
            if (env.courseSections cid t).isEmpty then
              ([CourseEv.fetchSubjects, CourseEv.fetchSubjectCourses subj,
                CourseEv.fetchCourseInfo cid, CourseEv.fetchCourseSections cid t],
               .error "ValueError: course with that ID does not exist")
            else
              ([CourseEv.fetchSubjects, CourseEv.fetchSubjectCourses subj,
                CourseEv.fetchCourseInfo cid, CourseEv.fetchCourseSections cid t],
               buildCourse t subj crs cid info (env.courseSections cid t))

/-- One `Meeting(...)` of the `meetings=[...]` comprehension in
`get_section_details` (course.py:187-200): here the placeholder check reads
`meeting["instructors"][0]["name"] not in ["To be Announced", "-"]`. -/
def buildMeetingDetail (m : RawMeetingDetail) : Meeting :=
  { days := m.stnd_mtg_pat, start_time := m.meeting_time_start,
    end_time := m.meeting_time_end, start_date := m.start_date,
    end_date := m.end_date,
    instructors :=
      if !m.instructors.isEmpty
          && !(match m.instructors.head? with
               | some i => i.name == "To be Announced" || i.name == "-"
               | none => false) then
        some (m.instructors.map fun i => { name := i.name, email := some i.email })
      else none }

/-- The `meetings=...` argument of `get_section_details` (course.py:187-201). -/
def buildMeetingDetails (l : List RawMeetingDetail) : Option (List Meeting) :=
  if !l.isEmpty then some (l.map buildMeetingDetail) else none

/-- `get_section_details` (course.py:171-214), given the fetched
`section_info` (`none` models a response carrying an `"error"` key,
course.py:263-267). -/
def get_section_details (term : PyArg) (section_number : PyArg)
    (resp : Option SectionInfo) : Except String Section :=
  match validate_term term with
  | .error e => .error e
  | .ok t =>
    match resp with
    | none => .error "ValueError: section with that ID does not exist"
    | some si =>
      .ok { term := t, session := si.class_details.session,
            section_number := si.class_details.class_section,
            class_number := pyStr section_number,
            section_type := si.class_details.component,
            status := si.class_details.status,
            instructors := none,
            meetings := buildMeetingDetails si.meetings,
            details := some
              { units := si.class_details.units,
                class_capacity := si.class_availability.class_capacity,
                enrollment_total := si.class_availability.enrollment_total,
                enrollment_available := pyStrInt si.class_availability.enrollment_available,
                wait_list_capacity := si.class_availability.wait_list_capacity,
                wait_list_total := si.class_availability.wait_list_total,
                valid_to_enroll := si.valid_to_enroll,
                combined_section_numbers :=
                  if si.is_combined then
                    some (si.combined_sections.map RawCombined.class_nbr)
                  else none } }

end PittAPI

namespace PittAPI

/-! ### Helper lemmas -/

lemma zeroPad4_length (s : String) (h : s.length ≤ 4) : (zeroPad4 s).length = 4 := by
  cases s with
  | mk data =>
    simp only [String.length, zeroPad4, List.length_append, List.length_replicate] at h ⊢
    omega

lemma zeroPad4_eq_self (s : String) (h : s.length = 4) : zeroPad4 s = s := by
  cases s with
  | mk data =>
    simp only [String.length, zeroPad4] at h ⊢
    simp [h]

lemma pyStrInt_nonneg (n : Int) (h : ¬ n < 0) : pyStrInt n = Nat.repr n.toNat := by
  simp [pyStrInt, h]

lemma repr_length_le_four (m : Nat) (h : m ≤ 9999) : (Nat.repr m).length ≤ 4 :=
  Nat.repr_length m 4 (by norm_num) (by omega)

/-- Claim C1: for every integer n with 1 ≤ n ≤ 9999, `_validate_course`
returns the 4-character zero-padded decimal string of n; it raises for
n = 0 and every n < 0, for every input whose stringified length exceeds 4
(in particular n > 9999), for the empty string, and for every string
containing a non-digit character. -/
theorem validate_course_spec :
    (∀ n : Int, 1 ≤ n → n ≤ 9999 →
      validate_course (.int n) = .ok (zeroPad4 (pyStrInt n)) ∧
        (zeroPad4 (pyStrInt n)).length = 4)
    ∧ (∀ n : Int, n ≤ 0 → ∃ e, validate_course (.int n) = .error e)
    ∧ (∀ arg : PyArg, 4 < (pyStr arg).length → ∃ e, validate_course arg = .error e)
    ∧ (∃ e, validate_course (.str "") = .error e)
    ∧ (∀ s : String, (∃ c ∈ s.toList, ¬ c.isDigit = true) →
        ∃ e, validate_course (.str s) = .error e) := by
  refine ⟨?_, ?_, ?_, ?_, ?_⟩
  · intro n h1 h9
    have hn0 : ¬ n ≤ 0 := by omega
    have hnn : ¬ n < 0 := by omega
    have hstr : pyStrInt n = Nat.repr n.toNat := pyStrInt_nonneg n hnn
    have hlen : (pyStrInt n).length ≤ 4 := by
      rw [hstr]; exact repr_length_le_four n.toNat (by omega)
    refine ⟨?_, zeroPad4_length _ hlen⟩
    simp only [validate_course, hn0, if_false]
    by_cases hl : (pyStrInt n).length < 4
    · simp [validate_course_len, hl]
    · have heq : (pyStrInt n).length = 4 := by omega
      simp [validate_course_len, hl, heq, zeroPad4_eq_self _ heq]
  · intro n hn
    exact ⟨"ValueError: course must be positive", by simp [validate_course, hn]⟩
  · intro arg h
    cases arg with
    | int n =>
      by_cases hn : n ≤ 0
      · exact ⟨"ValueError: course must be positive", by simp [validate_course, hn]⟩
      · have h4 : ¬ (pyStrInt n).length < 4 := by
          simp only [pyStr] at h; omega
        have h4' : (pyStrInt n).length > 4 := by simp only [pyStr] at h; omega
        exact ⟨"ValueError: course must be 4 characters long",
          by simp [validate_course, hn, validate_course_len, h4, h4']⟩
    | str s =>
      by_cases he : s = ""
      · subst he; simp only [pyStr, String.length] at h; simp at h
      · by_cases hd : pyIsDigit s
        · have h4 : ¬ s.length < 4 := by simp only [pyStr] at h; omega
          have h4' : s.length > 4 := by simp only [pyStr] at h; omega
          exact ⟨"ValueError: course must be 4 characters long",
            by simp [validate_course, he, hd, validate_course_len, h4, h4']⟩
        · exact ⟨"ValueError: course must be a number", by simp [validate_course, he, hd]⟩
  · exact ⟨_, rfl⟩
  · intro s hs
    obtain ⟨c, hc, hnd⟩ := hs
    by_cases he : s = ""
    · subst he; simp at hc
    · have hd : ¬ pyIsDigit s := by
        simp only [pyIsDigit, Bool.and_eq_true, not_and, List.all_eq_true]
        intro _ hall
        exact hnd (hall c hc)
      exact ⟨"ValueError: course must be a number", by simp [validate_course, he, hd]⟩

/-- Witness for C1 at concrete inputs. -/
theorem validate_course_spec_witness :
    (validate_course (.int 7) = .ok (zeroPad4 (pyStrInt 7)) ∧
      (zeroPad4 (pyStrInt 7)).length = 4)
    ∧ (∃ e, validate_course (.int 0) = .error e)
    ∧ (∃ e, validate_course (.str "12345") = .error e)
    ∧ (∃ e, validate_course (.str "ab") = .error e) :=
  ⟨validate_course_spec.1 7 (by norm_num) (by norm_num),
   validate_course_spec.2.1 0 (by norm_num),
   validate_course_spec.2.2.1 (.str "12345") (by decide),
   validate_course_spec.2.2.2.2 "ab" ⟨'a', by decide, by decide⟩⟩

lemma termRegexMatch_iff (s : String) :
    termRegexMatch s = true ↔
      ∃ c1 c2 c3 rest, s.toList = '2' :: c1 :: c2 :: c3 :: rest ∧
        c1.isDigit = true ∧ c2.isDigit = true ∧ (c3 = '1' ∨ c3 = '4' ∨ c3 = '7') := by
  rcases hl : s.toList with _ | ⟨c0, _ | ⟨c1, _ | ⟨c2, _ | ⟨c3, rest⟩⟩⟩⟩ <;>
    simp only [termRegexMatch, hl, List.cons.injEq, Bool.and_eq_true, Bool.or_eq_true,
      beq_iff_eq] <;>
    try simp
  constructor
  · rintro ⟨⟨⟨rfl, h1⟩, h2⟩, h3⟩
    exact ⟨c1, c2, c3, ⟨rfl, rfl, rfl, rfl⟩, h1, h2, by tauto⟩
  · rintro ⟨c1', c2', c3', ⟨rfl, rfl, rfl, rfl⟩, h1, h2, h3⟩
    exact ⟨⟨⟨rfl, h1⟩, h2⟩, by tauto⟩

/-- Counterexample to claim C2 as stated: `"20231"` is rejected by
`_validate_term` (its 4th character `'3'` fails `[147]`), and `"22310"` is
accepted even though its length is 5 (`re.match` is unanchored at the end),
so neither the claimed acceptance of `"20231"` nor the claimed
"length exactly 4" criterion holds. -/
theorem validate_term_counterexample :
    validate_term (.str "20231") = .error "ValueError: invalid term"
    ∧ validate_term (.str "22310") = .ok "22310"
    ∧ ("22310" : String).length = 5 :=
  ⟨rfl, rfl, rfl⟩

/-- Claim C2 (amended): `_validate_term` accepts a term (returning its
stringified form) iff the stringified term starts with the four-character
shape `'2'`, digit, digit, one of `{'1','4','7'}`; the regex is matched as a
prefix, unanchored at the end, so any characters may follow.  In particular
`"2231"` is accepted, while `"20232"` and `"999"` are rejected. -/
theorem validate_term_amended_spec :
    (∀ t : PyArg, (∃ s, validate_term t = .ok s) ↔
        ∃ c1 c2 c3 rest, (pyStr t).toList = '2' :: c1 :: c2 :: c3 :: rest ∧
          c1.isDigit = true ∧ c2.isDigit = true ∧ (c3 = '1' ∨ c3 = '4' ∨ c3 = '7'))
    ∧ (∀ t : PyArg, ∀ s, validate_term t = .ok s → s = pyStr t)
    ∧ validate_term (.str "2231") = .ok "2231"
    ∧ validate_term (.str "20232") = .error "ValueError: invalid term"
    ∧ validate_term (.str "999") = .error "ValueError: invalid term" := by
  refine ⟨?_, ?_, rfl, rfl, rfl⟩
  · intro t
    have h1 : (∃ s, validate_term t = .ok s) ↔ termRegexMatch (pyStr t) = true := by
      by_cases h : termRegexMatch (pyStr t) <;> simp [validate_term, h]
    exact h1.trans (termRegexMatch_iff (pyStr t))
  · intro t s hs
    by_cases h : termRegexMatch (pyStr t) = true
    · simp [validate_term, h] at hs; exact hs.symm
    · simp [validate_term, h] at hs

/-- Witness for the amended C2 at a concrete input. -/
theorem validate_term_amended_spec_witness :
    (∃ s, validate_term (.str "2231") = .ok s)
    ∧ ("2231" : String) = pyStr (.str "2231") :=
  ⟨(validate_term_amended_spec.1 (.str "2231")).mpr
     ⟨'2', '3', '1', [], rfl, rfl, rfl, Or.inl rfl⟩,
   (validate_term_amended_spec.2.1 (.str "2231") "2231" rfl).symm ▸ rfl⟩

lemma lookup_append (a : String) (l₁ l₂ : List (String × String)) :
    List.lookup a (l₁ ++ l₂) = (List.lookup a l₁).or (List.lookup a l₂) := by
  induction l₁ with
  | nil => simp [List.lookup]
  | cons p l ih =>
    by_cases h : a == p.1
    · simp [List.lookup, h]
    · simp [List.lookup, h, ih]

lemma get_internal_id_dict_go (courses : List CourseListing)
    (d : List (String × String)) (num : String) :
    (courses.foldl
        (fun d c =>
          if (d.lookup c.catalog_nbr).isSome then d
          else d ++ [(c.catalog_nbr, c.crse_id)]) d).lookup num =
      (d.lookup num).or
        ((courses.find? (fun c => c.catalog_nbr == num)).map CourseListing.crse_id) := by
  induction courses generalizing d with
  | nil => simp
  | cons c cs ih =>
    simp only [List.foldl_cons]
    by_cases hmem : (d.lookup c.catalog_nbr).isSome
    · rw [if_pos hmem, ih]
      by_cases heq : c.catalog_nbr == num
      · have he : c.catalog_nbr = num := eq_of_beq heq
        obtain ⟨v, hv⟩ := Option.isSome_iff_exists.mp hmem
        rw [he] at hv
        simp [List.find?_cons, heq, hv]
      · simp [List.find?_cons, heq]
    · rw [if_neg hmem, ih]
      by_cases heq : c.catalog_nbr == num
      · have he : c.catalog_nbr = num := eq_of_beq heq
        have hnone : d.lookup num = none := by
          rw [← he]
          exact Option.not_isSome_iff_eq_none.mp hmem
        simp [lookup_append, List.lookup, hnone, List.find?_cons, heq, beq_iff_eq, he]
      · have hne : ¬ (num == c.catalog_nbr) := by
          intro hb
          exact heq (by simp [beq_iff_eq] at hb ⊢; exact hb.symm)
        simp [lookup_append, List.lookup, hne, List.find?_cons, heq]

/-- Claim C6: `_get_internal_id_dict` builds a mapping from course number to
internal id in which, for duplicate catalog numbers in the fetched course
list, the first occurrence wins; `_get_course_id` returns the id mapped to
the requested course number and fails with the not-found `ValueError` when
that course number is absent. -/
theorem get_course_id_spec :
    (∀ (courses : List CourseListing) (num : String),
      (get_internal_id_dict courses).lookup num =
        (courses.find? (fun c => c.catalog_nbr == num)).map CourseListing.crse_id)
    ∧ (∀ (courses : List CourseListing) (num : String),
      get_course_id courses num =
        match (courses.find? (fun c => c.catalog_nbr == num)).map CourseListing.crse_id with
        | some cid => .ok cid
        | none => .error "ValueError: no course with that number") := by
  have h1 : ∀ (courses : List CourseListing) (num : String),
      (get_internal_id_dict courses).lookup num =
        (courses.find? (fun c => c.catalog_nbr == num)).map CourseListing.crse_id := by
    intro courses num
    have h := get_internal_id_dict_go courses [] num
    simpa [get_internal_id_dict, List.lookup] using h
  refine ⟨h1, ?_⟩
  intro courses num
  rw [get_course_id, h1]

/-- Shape of every successful `get_course_details` run: all validations and
fetches succeeded, the sections array was nonempty, and the result is the
`Course` record built from the fetched pieces. -/
lemma get_course_details_ok (env : Env) (term : PyArg) (subject : String)
    (course : PyArg) (tr : List CourseEv) (c : Course)
    (h : get_course_details env term subject course = (tr, .ok c)) :
    ∃ t subj crs cid info s0 rest builtSections,
      validate_term term = .ok t ∧
      validate_subject env.subjects subject = .ok subj ∧
      validate_course course = .ok crs ∧
      get_course_id (env.subjectCourses subj) crs = .ok cid ∧
      env.courseInfo cid = some info ∧
      env.courseSections cid t = s0 :: rest ∧
      mapME (buildSection t) (s0 :: rest) = .ok builtSections ∧
      c = { subject_code := subj, course_number := crs, course_id := cid,
            course_title := s0.descr,
            course_description := some info.descrlong,
            credit_range := some (info.units_minimum, info.units_maximum),
            requisites := buildRequisites info.offerings,
            components := buildComponents info.components,
            attributes := buildAttributes info.attributes,
            sections := some builtSections } := by
  rw [get_course_details] at h
  split at h
  · simp at h
  case _ t hval =>
  split at h
  · simp at h
  case _ subj hsub =>
  split at h
  · simp at h
  case _ crs hcrs =>
  split at h
  · simp at h
  case _ cid hcid =>
  split at h
  · simp at h
  case _ info hinfo =>
  split at h
  · simp at h
  case _ hne =>
  cases hsects : env.courseSections cid t with
  | nil => rw [hsects] at h; simp at hne; exact absurd hsects hne
  | cons s0 rest =>
    rw [hsects] at h
    rw [buildCourse] at h
    cases hmap : mapME (buildSection t) (s0 :: rest) with
    | error e => rw [hmap] at h; simp at h
    | ok builtSections =>
      rw [hmap] at h
      simp only [Prod.mk.injEq, Except.ok.injEq] at h
      exact ⟨t, subj, crs, cid, info, s0, rest, builtSections,
        hval, hsub, hcrs, hcid, hinfo, hsects, hmap, h.2.symm⟩

/-- Counterexample to claim C7 as stated: a component entry whose optional
marker equals `'N'` is built with `required = true` (course.py:132 reads
`True if component["optional"] == 'N' else False`), while the claim's
formula `required = (optional-marker != 'N')` predicts `false` there. -/
theorem component_required_counterexample :
    buildComponents (some [{ descr := "Lecture", optional := "N" }]) =
      some [{ component := "Lecture", required := true }]
    ∧ ¬ (("N" : String) ≠ "N") :=
  ⟨rfl, fun hne => hne rfl⟩

/-- Claim C7 (amended): for every component entry in the course-detail
response, the constructed `Component`'s `required` flag equals
(optional-marker == 'N'): `required` is true exactly when the entry's
`optional` field equals `'N'`.  Stated over the `components` builder and,
through it, over every `Course` produced by `get_course_details`. -/
theorem component_required_amended_spec :
    (∀ l : List RawComponent,
      buildComponents (some l) =
        if l.isEmpty then none
        else some (l.map fun comp =>
          { component := comp.descr, required := comp.optional == "N" }))
    ∧ (∀ env term subject course tr c,
        get_course_details env term subject course = (tr, .ok c) →
        ∀ info, env.courseInfo c.course_id = some info →
        ∀ raws, info.components = some raws →
          c.components = some (raws.map fun comp =>
            { component := comp.descr, required := comp.optional == "N" })
          ∨ (raws = [] ∧ c.components = none)) := by
  constructor
  · intro l
    cases l with
    | nil => simp [buildComponents]
    | cons x xs => simp [buildComponents]
  · intro env term subject course tr c h info hinfo raws hraws
    obtain ⟨t, subj, crs, cid, info', s0, rest, builtSections,
      _, _, _, _, hinfo', _, _, hc⟩ := get_course_details_ok env term subject course tr c h
    have hcid : c.course_id = cid := by rw [hc]
    rw [hcid, hinfo'] at hinfo
    have hii : info = info' := (Option.some_inj.mp hinfo).symm
    subst hii
    have hcomp : c.components = buildComponents info.components := by rw [hc]
    rw [hraws] at hcomp
    cases raws with
    | nil => right; exact ⟨rfl, by simpa [buildComponents] using hcomp⟩
    | cons x xs => left; simpa [buildComponents] using hcomp

/-- The `course_details` object of a concrete course-detail response whose
single component entry carries the marker `'N'`. -/
def infoC7 : CourseInfo :=
  { descrlong := "Intro", units_minimum := 3, units_maximum := 3,
    offerings := some [{ req_group := some "PREREQ" }],
    components := some [{ descr := "Lecture", optional := "N" }],
    attributes := none }

/-- A concrete environment for a happy-path `get_course_details` run. -/
def envC7 : Env :=
  { subjects := ["CS"],
    subjectCourses := fun _ => [{ catalog_nbr := "0007", crse_id := "105611" }],
    courseInfo := fun _ => some infoC7,
    courseSections := fun _ _ =>
      [{ descr := "Intro to Programming", session := "AT", class_section := "1000",
         class_nbr := 27000, section_type := "LEC", enrl_stat_descr := "Open",
         instructors := [.obj "Jane Doe" "jdoe@pitt.edu"], meetings := [] }] }

/-- The `Course` that `get_course_details` builds in the environment
`envC7` for term `"2231"`, subject `"CS"`, course `"0007"`. -/
def courseC7 : Course :=
  { subject_code := "CS", course_number := "0007", course_id := "105611",
    course_title := "Intro to Programming", course_description := some "Intro",
    credit_range := some (3, 3), requisites := some "PREREQ",
    components := some [{ component := "Lecture", required := true }],
    attributes := none,
    sections := some
      [{ term := "2231", session := "AT", section_number := "1000",
         class_number := "27000", section_type := "LEC", status := "Open",
         instructors := some [{ name := "Jane Doe", email := some "jdoe@pitt.edu" }],
         meetings := none, details := none }] }

/-- Witness for the amended C7: a concrete happy-path run of
`get_course_details` whose single component entry has marker `'N'` builds
`required = true`. -/
theorem component_required_amended_spec_witness :
    courseC7.components =
      some (([{ descr := "Lecture", optional := "N" }] : List RawComponent).map fun comp =>
        ({ component := comp.descr, required := comp.optional == "N" } : Component))
    ∨ (([{ descr := "Lecture", optional := "N" }] : List RawComponent) = []
        ∧ courseC7.components = none) :=
  component_required_amended_spec.2 envC7 (.str "2231") "CS" (.str "0007")
    [CourseEv.fetchSubjects, CourseEv.fetchSubjectCourses "CS",
     CourseEv.fetchCourseInfo "105611", CourseEv.fetchCourseSections "105611" "2231"]
    courseC7 rfl infoC7 rfl [{ descr := "Lecture", optional := "N" }] rfl

lemma mapME_ok_length (f : α → Except String β) :
    ∀ (l : List α) (ys : List β), mapME f l = .ok ys → ys.length = l.length := by
  intro l
  induction l with
  | nil => intro ys h; simp only [mapME, Except.ok.injEq] at h; subst h; rfl
  | cons x xs ih =>
    intro ys h
    rw [mapME] at h
    cases hfx : f x with
    | error e => rw [hfx] at h; simp at h
    | ok y =>
      rw [hfx] at h
      cases hm : mapME f xs with
      | error e => rw [hm] at h; simp at h
      | ok ys' =>
        rw [hm] at h
        simp only [Except.ok.injEq] at h
        subst h
        simp [ih ys' hm]

lemma mapME_ok_mem (f : α → Except String β) :
    ∀ (l : List α) (ys : List β), mapME f l = .ok ys →
      ∀ y ∈ ys, ∃ x ∈ l, f x = .ok y := by
  intro l
  induction l with
  | nil =>
    intro ys h
    simp only [mapME, Except.ok.injEq] at h
    subst h
    simp
  | cons x xs ih =>
    intro ys h
    rw [mapME] at h
    cases hfx : f x with
    | error e => rw [hfx] at h; simp at h
    | ok y =>
      rw [hfx] at h
      cases hm : mapME f xs with
      | error e => rw [hm] at h; simp at h
      | ok ys' =>
        rw [hm] at h
        simp only [Except.ok.injEq] at h
        subst h
        intro z hz
        rcases List.mem_cons.mp hz with rfl | hz'
        · exact ⟨x, List.mem_cons_self x xs, hfx⟩
        · obtain ⟨x', hx', hfx'⟩ := ih ys' hm z hz'
          exact ⟨x', List.mem_cons_of_mem x hx', hfx'⟩

lemma firstIsTBALit_iff (l : List InstrEntry) :
    firstIsTBALit l = true ↔ l.head? = some (.lit "To be Announced") := by
  cases l with
  | nil => simp [firstIsTBALit]
  | cons x xs =>
    cases x with
    | lit s => simp [firstIsTBALit]
    | obj n e => simp [firstIsTBALit]

lemma buildSectionInstructors_ok_none_iff (l : List InstrEntry) :
    buildSectionInstructors l = .ok none ↔
      (l = [] ∨ l.head? = some (.lit "To be Announced")) := by
  constructor
  · intro h
    by_cases hcond : (!l.isEmpty && !firstIsTBALit l) = true
    · rw [buildSectionInstructors, if_pos hcond] at h
      cases hm : mapME buildInstructor l with
      | error e => rw [hm] at h; simp at h
      | ok instrs => rw [hm] at h; simp at h
    · have hor : l.isEmpty = true ∨ firstIsTBALit l = true := by
        by_contra hcon
        push_neg at hcon
        apply hcond
        simp [Bool.eq_false_iff.mpr hcon.1, Bool.eq_false_iff.mpr hcon.2]
      rcases hor with h1 | h2
      · left; exact List.isEmpty_iff.mp h1
      · right; exact (firstIsTBALit_iff l).mp h2
  · intro h
    rcases h with rfl | hh
    · rfl
    · have h1 : firstIsTBALit l = true := (firstIsTBALit_iff l).mpr hh
      simp [buildSectionInstructors, h1]

lemma buildSectionInstructors_ne_some_nil (l : List InstrEntry)
    (r : Option (List Instructor)) (h : buildSectionInstructors l = .ok r) :
    r ≠ some [] := by
  by_cases hcond : (!l.isEmpty && !firstIsTBALit l) = true
  · rw [buildSectionInstructors, if_pos hcond] at h
    cases hm : mapME buildInstructor l with
    | error e => rw [hm] at h; simp at h
    | ok instrs =>
      rw [hm] at h
      simp only [Except.ok.injEq] at h
      subst h
      have hlen := mapME_ok_length buildInstructor l instrs hm
      have hne : l ≠ [] := by
        intro hl
        subst hl
        simp at hcond
      intro hsome
      have hnil : instrs = [] := Option.some_inj.mp hsome
      subst hnil
      simp only [List.length_nil] at hlen
      exact hne (List.eq_nil_of_length_eq_zero hlen.symm)
  · rw [buildSectionInstructors, if_neg hcond] at h
    simp only [Except.ok.injEq] at h
    subst h
    simp

lemma buildSection_ok (term : String) (s : RawSection) (sec : Section)
    (h : buildSection term s = .ok sec) :
    ∃ instrs, buildSectionInstructors s.instructors = .ok instrs ∧
      sec = { term := term, session := s.session, section_number := s.class_section,
              class_number := pyStrInt s.class_nbr, section_type := s.section_type,
              status := s.enrl_stat_descr, instructors := instrs,
              meetings := buildMeetings s.meetings, details := none } := by
  rw [buildSection] at h
  cases hbi : buildSectionInstructors s.instructors with
  | error e => rw [hbi] at h; simp at h
  | ok instrs =>
    rw [hbi] at h
    simp only [Except.ok.injEq] at h
    exact ⟨instrs, rfl, h.symm⟩

/-- Counterexample to claim C4 as stated: the code checks only the FIRST
entry (`section["instructors"][0] != "To be Announced"`, course.py:156), so
an array of two entries whose first is the bare placeholder is also
suppressed — the placeholder need not be the sole entry, contradicting the
claim's "exactly when ... its sole entry is" biconditional. -/
theorem section_instructors_counterexample :
    buildSectionInstructors
        [InstrEntry.lit "To be Announced", InstrEntry.obj "Jane Doe" "jdoe@pitt.edu"] =
      .ok none
    ∧ [InstrEntry.lit "To be Announced", InstrEntry.obj "Jane Doe" "jdoe@pitt.edu"].length = 2 :=
  ⟨rfl, rfl⟩

/-- Claim C4 (amended): in `get_course_details`, a `Section`'s instructor
list is absent (`None`) exactly when the source `instructors` array is empty
or when its FIRST entry is the literal placeholder string
`"To be Announced"` (regardless of any further entries); a section whose
array holds one real named instructor yields a one-element `Instructor` list
with that name and email. -/
theorem section_instructors_amended_spec :
    (∀ l : List InstrEntry,
      buildSectionInstructors l = .ok none ↔
        (l = [] ∨ l.head? = some (.lit "To be Announced")))
    ∧ (∀ name email, buildSectionInstructors [.obj name email] =
        .ok (some [{ name := name, email := some email }]))
    ∧ (∀ term s sec, buildSection term s = .ok sec →
        (sec.instructors = none ↔
          (s.instructors = [] ∨ s.instructors.head? = some (.lit "To be Announced")))) := by
  refine ⟨buildSectionInstructors_ok_none_iff, fun name email => rfl, ?_⟩
  intro term s sec h
  obtain ⟨instrs, hbi, hsec⟩ := buildSection_ok term s sec h
  have hfield : sec.instructors = instrs := by rw [hsec]
  rw [hfield]
  constructor
  · intro hn
    subst hn
    exact (buildSectionInstructors_ok_none_iff s.instructors).mp hbi
  · intro hor
    have hok := (buildSectionInstructors_ok_none_iff s.instructors).mpr hor
    rw [hbi] at hok
    injection hok

/-- Witness for the amended C4 at concrete inputs. -/
theorem section_instructors_amended_spec_witness :
    (buildSectionInstructors [] = .ok none)
    ∧ buildSectionInstructors [.obj "Jane Doe" "jdoe@pitt.edu"] =
        .ok (some [{ name := "Jane Doe", email := some "jdoe@pitt.edu" }]) :=
  ⟨(section_instructors_amended_spec.1 []).mpr (Or.inl rfl),
   section_instructors_amended_spec.2.1 "Jane Doe" "jdoe@pitt.edu"⟩

/-- Shape of every successful `get_section_details` run on a non-error
response. -/
lemma get_section_details_ok (term section_number : PyArg) (si : SectionInfo)
    (sec : Section)
    (h : get_section_details term section_number (some si) = .ok sec) :
    ∃ t, validate_term term = .ok t ∧
      sec = { term := t, session := si.class_details.session,
              section_number := si.class_details.class_section,
              class_number := pyStr section_number,
              section_type := si.class_details.component,
              status := si.class_details.status,
              instructors := none,
              meetings := buildMeetingDetails si.meetings,
              details := some
                { units := si.class_details.units,
                  class_capacity := si.class_availability.class_capacity,
                  enrollment_total := si.class_availability.enrollment_total,
                  enrollment_available := pyStrInt si.class_availability.enrollment_available,
                  wait_list_capacity := si.class_availability.wait_list_capacity,
                  wait_list_total := si.class_availability.wait_list_total,
                  valid_to_enroll := si.valid_to_enroll,
                  combined_section_numbers :=
                    if si.is_combined then
                      some (si.combined_sections.map RawCombined.class_nbr)
                    else none } } := by
  rw [get_section_details] at h
  cases hval : validate_term term with
  | error e => rw [hval] at h; simp at h
  | ok t =>
    rw [hval] at h
    simp only [Except.ok.injEq] at h
    exact ⟨t, rfl, h.symm⟩

/-- Claim C5: in `get_section_details`, when the response's `is_combined`
flag is false the returned details' `combined_section_numbers` is absent
regardless of the content of the `combined_sections` array; when
`is_combined` is true it is the list of class numbers taken from that
array. -/
theorem combined_sections_spec :
    ∀ (term section_number : PyArg) (si : SectionInfo) (sec : Section),
      get_section_details term section_number (some si) = .ok sec →
      sec.details ≠ none ∧
      ∀ d, sec.details = some d →
        (si.is_combined = false → d.combined_section_numbers = none) ∧
        (si.is_combined = true →
          d.combined_section_numbers =
            some (si.combined_sections.map RawCombined.class_nbr)) := by
  intro term sn si sec h
  obtain ⟨t, hval, hsec⟩ := get_section_details_ok term sn si sec h
  subst hsec
  refine ⟨by simp, ?_⟩
  intro d hd
  simp only [Option.some_inj] at hd
  subst hd
  constructor
  · intro hic; simp [hic]
  · intro hic; simp [hic]

/-- A concrete non-combined class-details response: `is_combined` is false
while `combined_sections` is nonetheless nonempty. -/
def siW : SectionInfo :=
  { class_details := { session := "AT", class_section := "1000", component := "LEC",
                       status := "Open", units := "3" },
    meetings := [],
    class_availability := { class_capacity := "30", enrollment_total := "10",
                            enrollment_available := 20, wait_list_capacity := "5",
                            wait_list_total := "0" },
    valid_to_enroll := "T", is_combined := false,
    combined_sections := [{ class_nbr := "99999" }] }

/-- The `Section` that `get_section_details` builds from `siW` for term
`"2231"` and section number `12345`. -/
def secW : Section :=
  { term := "2231", session := "AT", section_number := "1000",
    class_number := "12345", section_type := "LEC", status := "Open",
    instructors := none, meetings := none,
    details := some { units := "3", class_capacity := "30",
                      enrollment_total := "10", enrollment_available := "20",
                      wait_list_capacity := "5", wait_list_total := "0",
                      valid_to_enroll := "T",
                      combined_section_numbers := none } }

/-- Witness for C5 at the concrete response `siW`. -/
theorem combined_sections_spec_witness :
    secW.details ≠ none ∧
    ∀ d, secW.details = some d → d.combined_section_numbers = none :=
  ⟨(combined_sections_spec (.str "2231") (.int 12345) siW secW rfl).1,
   fun d hd =>
     (((combined_sections_spec (.str "2231") (.int 12345) siW secW rfl).2 d hd).1) rfl⟩

/-- Counterexample to claim C3 as stated: when `is_combined` is true and the
`combined_sections` array is empty, `get_section_details` sets
`combined_section_numbers` to an EMPTY list rather than leaving it absent,
so "empty source array ⇒ optional field is `None`, never an empty container"
fails for `combined_section_numbers`. -/
theorem optional_fields_counterexample :
    get_section_details (.str "2231") (.int 777)
        (some { class_details := { session := "AT", class_section := "2000",
                                   component := "LEC", status := "Open", units := "3" },
                meetings := [],
                class_availability := { class_capacity := "30", enrollment_total := "10",
                                        enrollment_available := 20,
                                        wait_list_capacity := "5", wait_list_total := "0" },
                valid_to_enroll := "T", is_combined := true,
                combined_sections := [] }) =
      .ok { term := "2231", session := "AT", section_number := "2000",
            class_number := "777", section_type := "LEC", status := "Open",
            instructors := none, meetings := none,
            details := some { units := "3", class_capacity := "30",
                              enrollment_total := "10", enrollment_available := "20",
                              wait_list_capacity := "5", wait_list_total := "0",
                              valid_to_enroll := "T",
                              combined_section_numbers := some [] } } := rfl

/-- Claim C3 (amended): in every entity built by the course operations, the
optional fields `components`, `attributes`, `meetings`, `instructors` and
`sections` are absent (`None`) whenever the underlying source array is empty
(or its key missing) and are never set to an empty container;
`combined_section_numbers`, however, is governed solely by the `is_combined`
flag: when that flag is true it is the — possibly empty — list of class
numbers from `combined_sections`, and when false it is absent. -/
theorem optional_fields_amended_spec :
    ((buildComponents none = none)
      ∧ (buildComponents (some []) = none)
      ∧ (∀ x, buildComponents x ≠ some [])
      ∧ (buildAttributes none = none)
      ∧ (buildAttributes (some []) = none)
      ∧ (∀ x, buildAttributes x ≠ some [])
      ∧ (buildMeetings [] = none)
      ∧ (∀ l, buildMeetings l ≠ some [])
      ∧ (∀ l ms, buildMeetings l = some ms → ∀ m ∈ ms, m.instructors ≠ some [])
      ∧ (buildSectionInstructors [] = .ok none)
      ∧ (∀ l r, buildSectionInstructors l = .ok r → r ≠ some [])
      ∧ (buildMeetingDetails [] = none)
      ∧ (∀ l, buildMeetingDetails l ≠ some [])
      ∧ (∀ m, (buildMeetingDetail m).instructors ≠ some []))
    ∧ (∀ env term subject course tr c,
        get_course_details env term subject course = (tr, .ok c) →
          c.sections ≠ none ∧ c.sections ≠ some [] ∧
          ∀ secs, c.sections = some secs → ∀ sec ∈ secs,
            sec.instructors ≠ some [] ∧ sec.meetings ≠ some [] ∧
            ∀ ms, sec.meetings = some ms → ∀ m ∈ ms, m.instructors ≠ some [])
    ∧ (∀ term sn si sec, get_section_details term sn (some si) = .ok sec →
        sec.instructors = none ∧ sec.meetings ≠ some [] ∧
        (∀ ms, sec.meetings = some ms → ∀ m ∈ ms, m.instructors ≠ some []) ∧
        ∀ d, sec.details = some d →
          (si.is_combined = true →
            d.combined_section_numbers =
              some (si.combined_sections.map RawCombined.class_nbr))
          ∧ (si.is_combined = false → d.combined_section_numbers = none)) := by
  have hBM : ∀ l ms, buildMeetings l = some ms → ∀ m ∈ ms, m.instructors ≠ some [] := by
    intro l ms h m hm
    rw [buildMeetings] at h
    by_cases he : !l.isEmpty
    · rw [if_pos he] at h
      obtain ⟨x, _, hx⟩ := List.mem_map.mp (Option.some_inj.mp h ▸ hm)
      rw [← hx]
      simp
    · rw [if_neg he] at h; simp at h
  have hBMD : ∀ m, (buildMeetingDetail m).instructors ≠ some [] := by
    intro m
    rw [buildMeetingDetail]
    by_cases hc : (!m.instructors.isEmpty
        && !(match m.instructors.head? with
             | some i => i.name == "To be Announced" || i.name == "-"
             | none => false)) = true
    · rw [if_pos hc]
      cases hl : m.instructors with
      | nil => rw [hl] at hc; simp at hc
      | cons i is => simp [hl]
    · rw [if_neg hc]; simp
  have hBMDs : ∀ l, buildMeetingDetails l ≠ some [] := by
    intro l
    rw [buildMeetingDetails]
    by_cases he : !l.isEmpty
    · rw [if_pos he]
      cases l with
      | nil => simp at he
      | cons x xs => simp
    · rw [if_neg he]; simp
  refine ⟨⟨rfl, rfl, ?_, rfl, rfl, ?_, rfl, ?_, hBM, rfl,
    buildSectionInstructors_ne_some_nil, rfl, hBMDs, hBMD⟩, ?_, ?_⟩
  · intro x
    cases x with
    | none => simp [buildComponents]
    | some l => cases l with
      | nil => simp [buildComponents]
      | cons a as => simp [buildComponents]
  · intro x
    cases x with
    | none => simp [buildAttributes]
    | some l => cases l with
      | nil => simp [buildAttributes]
      | cons a as => simp [buildAttributes]
  · intro l
    cases l with
    | nil => simp [buildMeetings]
    | cons a as => simp [buildMeetings]
  · intro env term subject course tr c h
    obtain ⟨t, subj, crs, cid, info, s0, rest, builtSections,
      _, _, _, _, _, _, hmap, hc⟩ := get_course_details_ok env term subject course tr c h
    have hsecs : c.sections = some builtSections := by rw [hc]
    have hne : builtSections ≠ [] := by
      intro hnil
      have := mapME_ok_length (buildSection t) (s0 :: rest) builtSections hmap
      rw [hnil] at this
      simp at this
    refine ⟨by rw [hsecs]; simp, by rw [hsecs]; simp [hne], ?_⟩
    intro secs hsecs' sec hmem
    rw [hsecs] at hsecs'
    have hss : builtSections = secs := Option.some_inj.mp hsecs'
    subst hss
    obtain ⟨x, _, hx⟩ := mapME_ok_mem (buildSection t) (s0 :: rest) builtSections hmap sec hmem
    obtain ⟨instrs, hbi, hsec⟩ := buildSection_ok t x sec hx
    refine ⟨?_, ?_, ?_⟩
    · have : sec.instructors = instrs := by rw [hsec]
      rw [this]
      exact buildSectionInstructors_ne_some_nil x.instructors instrs hbi
    · have : sec.meetings = buildMeetings x.meetings := by rw [hsec]
      rw [this]
      cases hl : x.meetings with
      | nil => simp [buildMeetings]
      | cons a as => simp [buildMeetings]
    · intro ms hms m hm
      have hme : sec.meetings = buildMeetings x.meetings := by rw [hsec]
      rw [hme] at hms
      exact hBM x.meetings ms hms m hm
  · intro term sn si sec h
    obtain ⟨t, hval, hsec⟩ := get_section_details_ok term sn si sec h
    subst hsec
    refine ⟨rfl, ?_, ?_, ?_⟩
    · exact hBMDs si.meetings
    · intro ms hms m hm
      rw [buildMeetingDetails] at hms
      by_cases he : !si.meetings.isEmpty
      · rw [if_pos he] at hms
        obtain ⟨x, _, hx⟩ := List.mem_map.mp (Option.some_inj.mp hms ▸ hm)
        rw [← hx]
        exact hBMD x
      · rw [if_neg he] at hms; simp at hms
    · intro d hd
      simp only [Option.some_inj] at hd
      subst hd
      constructor
      · intro hic; simp [hic]
      · intro hic; simp [hic]

/-- Witness for the amended C3 at concrete inputs. -/
theorem optional_fields_amended_spec_witness :
    secW.instructors = none ∧ secW.meetings ≠ some [] :=
  ⟨((optional_fields_amended_spec.2.2) (.str "2231") (.int 12345) siW secW rfl).1,
   ((optional_fields_amended_spec.2.2) (.str "2231") (.int 12345) siW secW rfl).2.1⟩

/-- Counterexample to claim C8 as stated: with a valid term and a valid
subject but a malformed course number, `get_course_details` raises the
course `ValueError` only AFTER the subject-roster fetch (course.py:115
`_validate_subject` calls the subjects API before course.py:116
`_validate_course` runs), so the rejection of a locally detectable malformed
course argument is not issued before every network call. -/
theorem invalidinput_prefetch_counterexample :
    get_course_details
        { subjects := ["CS"], subjectCourses := fun _ => [],
          courseInfo := fun _ => none, courseSections := fun _ _ => [] }
        (.str "2231") "CS" (.str "abc") =
      ([CourseEv.fetchSubjects], .error "ValueError: course must be a number")
    ∧ ([CourseEv.fetchSubjects] : List CourseEv) ≠ [] :=
  ⟨rfl, by simp⟩

/-- Claim C8 (amended): in `get_course_details`, a malformed term is
rejected before any network call (empty fetch trace), but a malformed course
number is rejected only after the subject-roster fetch, because subject
validation — which requires a network call — precedes course validation. -/
theorem invalidinput_prefetch_amended_spec :
    (∀ env term subject course e, validate_term term = .error e →
      get_course_details env term subject course = ([], .error e))
    ∧ (∀ env term subject course t e,
        validate_term term = .ok t →
        env.subjects.contains subject = true →
        validate_course course = .error e →
        get_course_details env term subject course =
          ([CourseEv.fetchSubjects], .error e)) := by
  constructor
  · intro env term subject course e h
    rw [get_course_details, h]
  · intro env term subject course t e ht hs hc
    have hsub : validate_subject env.subjects subject = .ok subject := by
      rw [validate_subject, if_pos hs]
    rw [get_course_details, ht, hsub, hc]

/-- A concrete environment with one known subject and one listed course. -/
def envW : Env :=
  { subjects := ["CS"],
    subjectCourses := fun _ => [{ catalog_nbr := "0007", crse_id := "105611" }],
    courseInfo := fun _ => none, courseSections := fun _ _ => [] }

/-- Witness for the amended C8 at concrete inputs. -/
theorem invalidinput_prefetch_amended_spec_witness :
    get_course_details envW (.str "999") "CS" (.str "0007") =
      ([], .error "ValueError: invalid term")
    ∧ get_course_details envW (.str "2231") "CS" (.str "abc") =
        ([CourseEv.fetchSubjects], .error "ValueError: course must be a number") :=
  ⟨invalidinput_prefetch_amended_spec.1 envW (.str "999") "CS" (.str "0007") _ rfl,
   invalidinput_prefetch_amended_spec.2 envW (.str "2231") "CS" (.str "abc") "2231" _
     rfl rfl rfl⟩

/-- Claim C9: in `get_all_gyms_info`, for every parsed barChart fragment,
failure to parse the percentage field as an integer yields a `Gym` record
with percentage 0 rather than raising an error; a fragment whose percentage
field parses (after stripping the `%` suffix) yields that integer. -/
theorem gym_percentage_spec :
    ∀ (i0 i1 i2 i3 i4 : String) (rest : List String) (count : Int),
      pyParseInt (pyDrop 12 i2) = some count →
        (pyParseInt (rstripPercent i4) = none →
          processBarChart (i0 :: i1 :: i2 :: i3 :: i4 :: rest) =
            .ok { name := i0, date := pyDrop 9 i3, count := count, percentage := 0 })
        ∧ (∀ v, pyParseInt (rstripPercent i4) = some v →
          processBarChart (i0 :: i1 :: i2 :: i3 :: i4 :: rest) =
            .ok { name := i0, date := pyDrop 9 i3, count := count, percentage := v }) := by
  intro i0 i1 i2 i3 i4 rest count hcount
  constructor
  · intro hp
    rw [processBarChart]
    simp [hcount, hp]
  · intro v hp
    rw [processBarChart]
    simp [hcount, hp]

/-- Witness for C9: a fragment with an unparsable percentage defaults to 0,
a parsable one yields its integer. -/
theorem gym_percentage_spec_witness :
    processBarChart
        ["Baierl Rec Center", "open", "Last Count: 12", "Updated: 07/12/2025", "NA"] =
      .ok { name := "Baierl Rec Center", date := "07/12/2025", count := 12, percentage := 0 }
    ∧ processBarChart
        ["Baierl Rec Center", "open", "Last Count: 12", "Updated: 07/12/2025", "45%"] =
      .ok { name := "Baierl Rec Center", date := "07/12/2025", count := 12, percentage := 45 } :=
  ⟨(gym_percentage_spec "Baierl Rec Center" "open" "Last Count: 12"
      "Updated: 07/12/2025" "NA" [] 12 rfl).1 rfl,
   (gym_percentage_spec "Baierl Rec Center" "open" "Last Count: 12"
      "Updated: 07/12/2025" "45%" [] 12 rfl).2 45 rfl⟩

/-- Claim C10: `get_gym_information(name)` returns `None` both when the name
is outside the fixed 8-name roster and when it is in the roster but no
fetched `Gym` record matches it; in every case it performs exactly one page
fetch, issued before the name is checked against the roster. -/
theorem gym_information_spec :
    ∀ (page : List Gym) (name : String),
      (get_gym_information page name).1 = [GymEv.fetchGymPage, GymEv.rosterCheck name]
      ∧ (GYM_Names.contains name = false → (get_gym_information page name).2 = none)
      ∧ ((∀ g ∈ page, g.name ≠ name) → (get_gym_information page name).2 = none) := by
  intro page name
  refine ⟨rfl, ?_, ?_⟩
  · intro h
    have hnm : name ∉ GYM_Names := by simpa using h
    simp [get_gym_information, h]
    intro hmem
    exact absurd hmem hnm
  · intro h
    by_cases hc : GYM_Names.contains name
    · rw [get_gym_information]
      simp only [hc, if_true]
      apply List.find?_eq_none.mpr
      intro g hg
      simp only [beq_iff_eq]
      exact h g hg
    · have hnm : name ∉ GYM_Names := by simpa using hc
      simp [get_gym_information, hc]
      intro hmem
      exact absurd hmem hnm

/-- Witness for C10 at a concrete page and names. -/
theorem gym_information_spec_witness :
    (get_gym_information
        [{ name := "Trees Hall: Courts", date := "d", count := 1, percentage := 2 }]
        "Nope").2 = none
    ∧ (get_gym_information
        [{ name := "Trees Hall: Courts", date := "d", count := 1, percentage := 2 }]
        "Baierl Rec Center").2 = none :=
  ⟨(gym_information_spec
      [{ name := "Trees Hall: Courts", date := "d", count := 1, percentage := 2 }]
      "Nope").2.1 rfl,
   (gym_information_spec
      [{ name := "Trees Hall: Courts", date := "d", count := 1, percentage := 2 }]
      "Baierl Rec Center").2.2 (by decide)⟩

end PittAPI
